import Mathlib

/-!
Verification of scrapy-camoufox download handler (src/scrapy_camoufox/handler.py)
against its natural-language specification.

The Python source is shallowly embedded: each function relevant to a claim is
translated into an executable Lean definition, with external collaborators
(Playwright objects, Scrapy settings, byte decoding) modelled as explicit data
or as function parameters.  Bytes are modelled as lists of naturals, Python
dicts of string headers as association lists.
-/

namespace ScrapyCamoufox

/-! ## Shared string utilities

Python str.rstrip and the substring operator str-in-str, used by the handler. -/

/-- Python s.rstrip with the slash character: drops every trailing slash. -/
def rstripSlash (s : String) : String :=
  String.mk ((s.data.reverse.dropWhile (fun c => c == '/')).reverse)

/-- Python pat in s: pat occurs as a contiguous substring of s. -/
def strContains (s pat : String) : Bool :=
  (List.range (s.data.length + 1)).any (fun i => pat.data.isPrefixOf (s.data.drop i))

/-- ASCII uppercase of one character, as Python str.upper acts on the ASCII
method names compared by the handler. -/
def charUpper (c : Char) : Char :=
  if 97 ≤ c.toNat ∧ c.toNat ≤ 122 then Char.ofNat (c.toNat - 32) else c

/-- Python s.upper restricted to ASCII. -/
def pyUpper (s : String) : String :=
  String.mk (s.data.map charUpper)

/-! ## Interception reconciler: the closure _request_handler built by
ScrapyCamoufoxDownloadHandler._make_request_handler (handler.py lines 630 to 727).

A Playwright sub-request carries the data the handler inspects: url, method,
whether it is the top-level navigation request, and the fully resolved headers
that playwright_request.all_headers() would return. -/

structure SubRequest where
  url : String
  method : String
  is_navigation_request : Bool
  resolved_headers : List (String × String)
deriving Repr, DecidableEq

/-- Arguments captured by _make_request_handler from the Scrapy request:
method, url, body and encoding of the LogicalRequest. -/
structure HandlerCfg where
  method : String
  url : String
  body : List Nat
  encoding : String
deriving Repr, DecidableEq

/-- The route decision taken for one sub-request: route.abort, or
route.continue_ with an optional method override and an optional post data
payload. -/
inductive RouteAction where
  | abort : RouteAction
  | cont : Option String → Option String → RouteAction
deriving Repr, DecidableEq

/-- What the handler did for one sub-request: the route action taken and
whether playwright_request.all_headers() was awaited (it is skipped on the
abort path). -/
structure HandlerOutput where
  action : RouteAction
  headers_read : Bool
deriving Repr, DecidableEq

/-- Per-fetch mutable state shared by all invocations of the handler:
the initial_request_done event and the Scrapy request headers object that
step 4 overwrites. -/
structure FetchState where
  initial_request_done : Bool
  headers_view : List (String × String)
deriving Repr, DecidableEq

/-- Python `if self.abort_request:` followed by the predicate call; None means
no abort predicate is configured. -/
def shouldAbort (abort_request : Option (SubRequest → Bool)) (pr : SubRequest) : Bool :=
  match abort_request with
  | none => false
  | some f => f pr

/-- One invocation of _request_handler on one intercepted sub-request
(handler.py lines 641 to 727).  decode models bytes.decode(encoding).
Continuation failures (safe close race) are external effects and not part of
the returned data. -/
def requestHandler (abort_request : Option (SubRequest → Bool))
    (decode : String → List Nat → String) (cfg : HandlerCfg)
    (st : FetchState) (pr : SubRequest) : HandlerOutput × FetchState :=
  if shouldAbort abort_request pr then
    (⟨RouteAction.abort, false⟩, st)
  else
    let final_headers := pr.resolved_headers
    if (rstripSlash pr.url == rstripSlash cfg.url) && pr.is_navigation_request
        && !st.initial_request_done then
      let method_override : Option String :=
        if pyUpper cfg.method == pyUpper pr.method then none else some cfg.method
      let post_data : Option String :=
        if cfg.body.isEmpty then none else some (decode cfg.encoding cfg.body)
      (⟨RouteAction.cont method_override post_data, true⟩,
       { initial_request_done := true, headers_view := final_headers })
    else
      (⟨RouteAction.cont none none, true⟩, st)

/-- Run the handler over the sub-requests of one fetch, in arrival order,
threading the per-fetch state. -/
def processRequests (abort_request : Option (SubRequest → Bool))
    (decode : String → List Nat → String) (cfg : HandlerCfg)
    (st : FetchState) : List SubRequest → List HandlerOutput × FetchState
  | [] => ([], st)
  | pr :: rest =>
    let (out, st1) := requestHandler abort_request decode cfg st pr
    let (outs, st2) := processRequests abort_request decode cfg st1 rest
    (out :: outs, st2)

/-- The output the handler produces for every sub-request other than the
matched one: abort when the abort predicate selects it, otherwise a
continuation with no overrides. -/
def trivialOutput (abort_request : Option (SubRequest → Bool)) (pr : SubRequest) :
    HandlerOutput :=
  if shouldAbort abort_request pr then ⟨RouteAction.abort, false⟩
  else ⟨RouteAction.cont none none, true⟩

/-- The output the handler produces for the matched sub-request. -/
def matchedOutput (decode : String → List Nat → String) (cfg : HandlerCfg)
    (pr : SubRequest) : HandlerOutput :=
  ⟨RouteAction.cont
      (if pyUpper cfg.method == pyUpper pr.method then none else some cfg.method)
      (if cfg.body.isEmpty then none else some (decode cfg.encoding cfg.body)),
    true⟩

/-- A sub-request is eligible to become the matched request: not aborted,
URL equal up to trailing slashes, and a top-level navigation request. -/
def matchPred (abort_request : Option (SubRequest → Bool)) (cfg : HandlerCfg)
    (pr : SubRequest) : Bool :=
  !(shouldAbort abort_request pr)
    && (rstripSlash pr.url == rstripSlash cfg.url) && pr.is_navigation_request

lemma requestHandler_done (abort_request : Option (SubRequest → Bool))
    (decode : String → List Nat → String) (cfg : HandlerCfg)
    (h : List (String × String)) (pr : SubRequest) :
    requestHandler abort_request decode cfg ⟨true, h⟩ pr =
      (trivialOutput abort_request pr, ⟨true, h⟩) := by
  unfold requestHandler trivialOutput
  by_cases hab : shouldAbort abort_request pr <;> simp [hab]

lemma requestHandler_nomatch (abort_request : Option (SubRequest → Bool))
    (decode : String → List Nat → String) (cfg : HandlerCfg)
    (h : List (String × String)) (pr : SubRequest)
    (hnm : matchPred abort_request cfg pr = false) :
    requestHandler abort_request decode cfg ⟨false, h⟩ pr =
      (trivialOutput abort_request pr, ⟨false, h⟩) := by
  unfold matchPred at hnm
  unfold requestHandler trivialOutput
  cases hab : shouldAbort abort_request pr with
  | true => simp [hab]
  | false =>
    rw [hab] at hnm
    cases hu : (rstripSlash pr.url == rstripSlash cfg.url) with
    | false => simp [hab, hu]
    | true =>
      rw [hu] at hnm
      cases hn : pr.is_navigation_request with
      | false => simp [hab, hu, hn]
      | true => rw [hn] at hnm; simp at hnm

lemma requestHandler_match (abort_request : Option (SubRequest → Bool))
    (decode : String → List Nat → String) (cfg : HandlerCfg)
    (h : List (String × String)) (pr : SubRequest)
    (hm : matchPred abort_request cfg pr = true) :
    requestHandler abort_request decode cfg ⟨false, h⟩ pr =
      (matchedOutput decode cfg pr, ⟨true, pr.resolved_headers⟩) := by
  unfold matchPred at hm
  simp only [Bool.and_eq_true, Bool.not_eq_true'] at hm
  obtain ⟨⟨hab, hu⟩, hn⟩ := hm
  unfold requestHandler matchedOutput
  simp [hab, hu, hn]

lemma processRequests_done (abort_request : Option (SubRequest → Bool))
    (decode : String → List Nat → String) (cfg : HandlerCfg)
    (h : List (String × String)) (l : List SubRequest) :
    processRequests abort_request decode cfg ⟨true, h⟩ l =
      (l.map (trivialOutput abort_request), ⟨true, h⟩) := by
  induction l with
  | nil => simp [processRequests]
  | cons pr rest ih =>
    simp [processRequests, requestHandler_done, ih]

lemma processRequests_nomatch (abort_request : Option (SubRequest → Bool))
    (decode : String → List Nat → String) (cfg : HandlerCfg)
    (h : List (String × String)) (l : List SubRequest)
    (hl : ∀ x ∈ l, matchPred abort_request cfg x = false) :
    processRequests abort_request decode cfg ⟨false, h⟩ l =
      (l.map (trivialOutput abort_request), ⟨false, h⟩) := by
  induction l with
  | nil => simp [processRequests]
  | cons pr rest ih =>
    have hpr : matchPred abort_request cfg pr = false := hl pr (by simp)
    have hrest : ∀ x ∈ rest, matchPred abort_request cfg x = false := by
      intro x hx; exact hl x (by simp [hx])
    simp [processRequests, requestHandler_nomatch _ _ _ _ _ hpr, ih hrest]

/-! Concrete data used to exercise the interception reconciler. -/

def cexAbort : SubRequest → Bool := fun pr => pr.url == "http://a"

def cexDecode : String → List Nat → String := fun _ _ => ""

def cexCfg : HandlerCfg :=
  { method := "GET", url := "http://a/", body := [], encoding := "utf-8" }

def cexR1 : SubRequest :=
  { url := "http://a", method := "GET", is_navigation_request := true,
    resolved_headers := [("x", "y")] }

def cexCfg2 : HandlerCfg :=
  { method := "get", url := "http://b", body := [], encoding := "utf-8" }

def cexR2 : SubRequest :=
  { url := "http://b", method := "GET", is_navigation_request := true,
    resolved_headers := [] }

def witDecode : String → List Nat → String := fun e _ => e

def witCfg : HandlerCfg :=
  { method := "GET", url := "http://w", body := [7, 8], encoding := "utf-8" }

def witR : SubRequest :=
  { url := "http://w/", method := "POST", is_navigation_request := true,
    resolved_headers := [("server", "nginx")] }

/-- Claim C1, as stated, is falsified by the code on two points.  First, a
sub-request that satisfies all three stated matching conditions (URL equal up
to trailing slashes, top-level navigation, state still unmatched) but is
selected by a configured abort predicate is aborted: it is neither continued
nor matched and the header view is not replaced.  Second, a matched
sub-request whose method differs from the LogicalRequest method only by case
is continued without a method override, although the methods differ. -/
theorem claim_C1_counterexample :
    ((rstripSlash cexR1.url == rstripSlash cexCfg.url) = true
      ∧ cexR1.is_navigation_request = true
      ∧ processRequests (some cexAbort) cexDecode cexCfg ⟨false, []⟩ [cexR1] =
          ([⟨RouteAction.abort, false⟩], ⟨false, []⟩))
  ∧ (cexCfg2.method ≠ cexR2.method
      ∧ requestHandler none cexDecode cexCfg2 ⟨false, []⟩ cexR2 =
          (⟨RouteAction.cont none none, true⟩, ⟨true, cexR2.resolved_headers⟩)) := by
  refine ⟨⟨by decide, by decide, by decide⟩, by decide, by decide⟩

/-- Claim C1 (amended): for every fetch, at most one sub-request is treated as
the initial/matching request, namely the first one not selected by the abort
predicate whose URL with trailing slashes ignored equals the LogicalRequest
URL and that is a top-level navigation request arriving while the state is
still unmatched.  For that sub-request only, the method is overridden on
continuation iff it differs case-insensitively from the LogicalRequest method,
the LogicalRequest body (if non-empty) is decoded with the LogicalRequest
encoding and attached as the continued payload, and the header view is
replaced by that sub-request's resolved headers; every other sub-request is
continued with no overrides, except those selected by the abort predicate,
which are aborted. -/
theorem claim_C1_single_match :
    ∀ (abort_request : Option (SubRequest → Bool)) (decode : String → List Nat → String)
      (cfg : HandlerCfg) (h0 : List (String × String)),
    (∀ (l1 : List SubRequest) (pr : SubRequest) (l2 : List SubRequest),
      (∀ x ∈ l1, matchPred abort_request cfg x = false) →
      matchPred abort_request cfg pr = true →
      processRequests abort_request decode cfg ⟨false, h0⟩ (l1 ++ pr :: l2) =
        (l1.map (trivialOutput abort_request) ++
          matchedOutput decode cfg pr :: l2.map (trivialOutput abort_request),
         ⟨true, pr.resolved_headers⟩))
  ∧ (∀ l : List SubRequest, (∀ x ∈ l, matchPred abort_request cfg x = false) →
      processRequests abort_request decode cfg ⟨false, h0⟩ l =
        (l.map (trivialOutput abort_request), ⟨false, h0⟩)) := by
  intro abort_request decode cfg h0
  constructor
  · intro l1 pr l2 hl1 hpr
    induction l1 with
    | nil =>
      simp [processRequests, requestHandler_match _ _ _ _ _ hpr,
        processRequests_done]
    | cons x rest ih =>
      have hx : matchPred abort_request cfg x = false := hl1 x (by simp)
      have hrest : ∀ y ∈ rest, matchPred abort_request cfg y = false := by
        intro y hy; exact hl1 y (by simp [hy])
      simp [processRequests, requestHandler_nomatch _ _ _ _ _ hx, ih hrest]
  · intro l hl
    exact processRequests_nomatch abort_request decode cfg h0 l hl

/-- Witness for claim C1: a single matching POST sub-request is continued with
the method override and the decoded body, and the header view is replaced. -/
theorem claim_C1_witness :
    processRequests none witDecode witCfg ⟨false, []⟩ ([] ++ witR :: []) =
      (List.map (trivialOutput none) [] ++
        matchedOutput witDecode witCfg witR :: List.map (trivialOutput none) [],
       ⟨true, witR.resolved_headers⟩) :=
  (claim_C1_single_match none witDecode witCfg []).1 [] witR []
    (by intro x hx; cases hx) (by decide)

def w8Abort : SubRequest → Bool := fun _ => true

def w8Decode : String → List Nat → String := fun _ _ => ""

def w8Cfg : HandlerCfg :=
  { method := "GET", url := "http://c", body := [], encoding := "utf-8" }

def w8R : SubRequest :=
  { url := "http://c", method := "GET", is_navigation_request := true,
    resolved_headers := [("k", "v")] }

/-- Claim C8: when the configured abort predicate evaluates to true on an
intercepted sub-request, the handler aborts it and returns without reading the
resolved headers, without touching the per-fetch state (so it is never
matched), and without continuing it; such a sub-request never satisfies the
matching predicate. -/
theorem claim_C8_abort_precedence :
    ∀ (f : SubRequest → Bool) (decode : String → List Nat → String)
      (cfg : HandlerCfg) (st : FetchState) (pr : SubRequest),
      f pr = true →
      requestHandler (some f) decode cfg st pr = (⟨RouteAction.abort, false⟩, st)
        ∧ matchPred (some f) cfg pr = false := by
  intro f decode cfg st pr hf
  have hab : shouldAbort (some f) pr = true := hf
  constructor
  · unfold requestHandler
    simp [hab]
  · unfold matchPred
    simp [hab]

/-- Witness for claim C8: an always-true abort predicate aborts a sub-request
that would otherwise match, leaving the state untouched. -/
theorem claim_C8_witness :
    requestHandler (some w8Abort) w8Decode w8Cfg ⟨false, []⟩ w8R =
        (⟨RouteAction.abort, false⟩, ⟨false, []⟩)
      ∧ matchPred (some w8Abort) w8Cfg w8R = false :=
  claim_C8_abort_precedence w8Abort w8Decode w8Cfg ⟨false, []⟩ w8R rfl

/-! ## Configuration (handler.py lines 82 to 112)

The Config dataclass, with dict-valued settings modelled as association
lists and the float navigation timeout as a natural number of milliseconds.
Defaults mirror the dataclass field defaults. -/

structure ContextKwargs where
  user_data_dir : Option String := none
deriving Repr, DecidableEq

structure Config where
  launch_options : List (String × String) := []
  max_pages_per_context : Nat
  max_contexts : Option Nat
  startup_context_kwargs : List (String × ContextKwargs) := []
  navigation_timeout : Option Nat
  restart_disconnected_browser : Bool
  target_closed_max_retries : Nat := 3
  use_threaded_loop : Bool := false
  browser_type_name : String := "firefox"
deriving Repr, DecidableEq

/-! ## Retry wrapper: ScrapyCamoufoxDownloadHandler._download_request
(handler.py lines 309 to 327).

One attempt of the pipeline either returns a response, raises
TargetClosedError, or raises an error of any other class.  Error identities
are carried as naturals so that re-raising the last error is observable. -/

inductive AttemptOutcome (R : Type) where
  | ok : R → AttemptOutcome R
  | target_closed : Nat → AttemptOutcome R
  | other_error : Nat → AttemptOutcome R
deriving Repr, DecidableEq

inductive FetchError where
  | target_closed : Nat → FetchError
  | other_error : Nat → FetchError
deriving Repr, DecidableEq

/-- The while loop of _download_request: attempts is the sequence of pipeline
attempt outcomes, remaining the number of retries still allowed (the loop
raises when the retry counter exceeds target_closed_max_retries), idx the
current attempt index. -/
def runRetry {R : Type} (attempts : Nat → AttemptOutcome R) :
    Nat → Nat → Except FetchError R
  | remaining, idx =>
    match attempts idx with
    | .ok r => .ok r
    | .other_error e => .error (.other_error e)
    | .target_closed e =>
      match remaining with
      | 0 => .error (.target_closed e)
      | n + 1 => runRetry attempts n (idx + 1)

/-- _download_request: run the pipeline, retrying the whole pipeline on
TargetClosedError up to target_closed_max_retries extra attempts. -/
def downloadRequest {R : Type} (target_closed_max_retries : Nat)
    (attempts : Nat → AttemptOutcome R) : Except FetchError R :=
  runRetry attempts target_closed_max_retries 0

lemma runRetry_ok {R : Type} (attempts : Nat → AttemptOutcome R) (r : R) :
    ∀ (k remaining idx : Nat), k ≤ remaining →
      (∀ i, i < k → ∃ e, attempts (idx + i) = .target_closed e) →
      attempts (idx + k) = .ok r →
      runRetry attempts remaining idx = .ok r := by
  intro k
  induction k with
  | zero =>
    intro remaining idx _ _ hk
    unfold runRetry
    simp only [Nat.add_zero] at hk
    rw [hk]
  | succ n ih =>
    intro remaining idx hle hclosed hk
    obtain ⟨e, he⟩ := hclosed 0 (Nat.succ_pos n)
    simp only [Nat.add_zero] at he
    obtain ⟨m, rfl⟩ : ∃ m, remaining = m + 1 :=
      ⟨remaining - 1, by omega⟩
    unfold runRetry
    rw [he]
    refine ih m (idx + 1) (by omega) ?_ ?_
    · intro i hi
      obtain ⟨e2, he2⟩ := hclosed (i + 1) (by omega)
      exact ⟨e2, by rw [show idx + 1 + i = idx + (i + 1) by omega]; exact he2⟩
    · rw [show idx + 1 + n = idx + (n + 1) by omega]
      exact hk

lemma runRetry_exhausted {R : Type} (attempts : Nat → AttemptOutcome R)
    (es : Nat → Nat) :
    ∀ (remaining idx : Nat),
      (∀ i, i ≤ remaining → attempts (idx + i) = .target_closed (es (idx + i))) →
      runRetry attempts remaining idx =
        .error (.target_closed (es (idx + remaining))) := by
  intro remaining
  induction remaining with
  | zero =>
    intro idx h
    have h0 := h 0 (Nat.le_refl 0)
    unfold runRetry
    simp only [Nat.add_zero] at h0 ⊢
    rw [h0]
  | succ n ih =>
    intro idx h
    have h0 := h 0 (Nat.zero_le _)
    simp only [Nat.add_zero] at h0
    unfold runRetry
    rw [h0]
    have hrec := ih (idx + 1) (fun i hi => by
      rw [show idx + 1 + i = idx + (i + 1) by omega]
      exact h (i + 1) (by omega))
    show runRetry attempts n (idx + 1) =
      Except.error (FetchError.target_closed (es (idx + (n + 1))))
    rw [show idx + (n + 1) = idx + 1 + n by omega]
    exact hrec

lemma runRetry_other {R : Type} (attempts : Nat → AttemptOutcome R) (e : Nat) :
    ∀ (k remaining idx : Nat), k ≤ remaining →
      (∀ i, i < k → ∃ e2, attempts (idx + i) = .target_closed e2) →
      attempts (idx + k) = .other_error e →
      runRetry attempts remaining idx = .error (.other_error e) := by
  intro k
  induction k with
  | zero =>
    intro remaining idx _ _ hk
    unfold runRetry
    simp only [Nat.add_zero] at hk
    rw [hk]
  | succ n ih =>
    intro remaining idx hle hclosed hk
    obtain ⟨e2, he⟩ := hclosed 0 (Nat.succ_pos n)
    simp only [Nat.add_zero] at he
    obtain ⟨m, rfl⟩ : ∃ m, remaining = m + 1 :=
      ⟨remaining - 1, by omega⟩
    unfold runRetry
    rw [he]
    refine ih m (idx + 1) (by omega) ?_ ?_
    · intro i hi
      obtain ⟨e3, he3⟩ := hclosed (i + 1) (by omega)
      exact ⟨e3, by rw [show idx + 1 + i = idx + (i + 1) by omega]; exact he3⟩
    · rw [show idx + 1 + n = idx + (n + 1) by omega]
      exact hk

/-- Claim C2: with retry bound b, a fetch whose attempts raise
TargetClosedError exactly R times (R at most b) and then succeed returns the
success of attempt R+1; a fetch whose first b+1 attempts all raise
TargetClosedError re-raises the last such error; an error of any other class
raised after any run of TargetClosedError failures within the bound
propagates immediately; and the configured bound defaults to 3. -/
theorem claim_C2_retry_policy :
    (∀ (R : Type) (b : Nat) (attempts : Nat → AttemptOutcome R) (r : R) (n : Nat),
      n ≤ b →
      (∀ i, i < n → ∃ e, attempts i = .target_closed e) →
      attempts n = .ok r →
      downloadRequest b attempts = .ok r)
  ∧ (∀ (R : Type) (b : Nat) (attempts : Nat → AttemptOutcome R) (es : Nat → Nat),
      (∀ i, i ≤ b → attempts i = .target_closed (es i)) →
      downloadRequest b attempts = .error (.target_closed (es b)))
  ∧ (∀ (R : Type) (b : Nat) (attempts : Nat → AttemptOutcome R) (e n : Nat),
      n ≤ b →
      (∀ i, i < n → ∃ e2, attempts i = .target_closed e2) →
      attempts n = .other_error e →
      downloadRequest b attempts = .error (.other_error e))
  ∧ (∀ (a : List (String × String)) (b : Nat) (c : Option Nat)
        (d : List (String × ContextKwargs)) (e : Option Nat) (f : Bool),
      ({ launch_options := a, max_pages_per_context := b, max_contexts := c,
         startup_context_kwargs := d, navigation_timeout := e,
         restart_disconnected_browser := f } : Config).target_closed_max_retries = 3) := by
  refine ⟨?_, ?_, ?_, ?_⟩
  · intro R b attempts r n hn hclosed hok
    exact runRetry_ok attempts r n b 0 hn
      (fun i hi => by simpa using hclosed i hi) (by simpa using hok)
  · intro R b attempts es h
    have := runRetry_exhausted attempts es b 0 (fun i hi => by simpa using h i hi)
    simpa [downloadRequest] using this
  · intro R b attempts e n hn hclosed hother
    exact runRetry_other attempts e n b 0 hn
      (fun i hi => by simpa using hclosed i hi) (by simpa using hother)
  · intro a b c d e f
    rfl

def w2Attempts : Nat → AttemptOutcome Nat := fun i =>
  match i with
  | 0 => .target_closed 7
  | 1 => .target_closed 8
  | _ => .ok 42

/-- Witness for claim C2: two TargetClosedError attempts under the default
bound 3, then success on the third attempt. -/
theorem claim_C2_witness : downloadRequest 3 w2Attempts = .ok 42 :=
  claim_C2_retry_policy.1 Nat 3 w2Attempts 42 2 (by omega)
    (by
      intro i hi
      match i, hi with
      | 0, _ => exact ⟨7, rfl⟩
      | 1, _ => exact ⟨8, rfl⟩)
    rfl

/-! ## Redirect chain builder: _set_redirect_meta (handler.py lines 758 to 774).

A redirect chain is the redirected_from structure hanging off the terminal
response's request: each hop has a url and the status of the response recorded
at that hop (none when redirected.response() returned None). -/

inductive RedirectChain where
  | last : String → Option Nat → RedirectChain
  | step : String → Option Nat → RedirectChain → RedirectChain
deriving Repr, DecidableEq

/-- The while loop of _set_redirect_meta, walking the backward links starting
from a non-None redirected_from and accumulating count, urls and reasons in
walk order (most recent hop first). -/
def walkChain : RedirectChain → Nat × List String × List (Option Nat)
  | .last u st => (1, [u], [st])
  | .step u st prev =>
    let (t, us, rs) := walkChain prev
    (t + 1, u :: us, st :: rs)

/-- _set_redirect_meta: given the redirected_from link of the terminal
response's request (none when there was no redirect), produce the metadata
(redirect_times, redirect_urls, redirect_reasons) or none when no hop
existed. -/
def setRedirectMeta : Option RedirectChain →
    Option (Nat × List String × List (Option Nat))
  | none => none
  | some c =>
    let (t, us, rs) := walkChain c
    if t = 0 then none else some (t, us.reverse, rs.reverse)

/-- The hops of a chain in chronological order: the oldest request first,
pairing each hop's url with its recorded status. -/
def chronHops : RedirectChain → List (String × Option Nat)
  | .last u st => [(u, st)]
  | .step u st prev => chronHops prev ++ [(u, st)]

lemma walkChain_chron (c : RedirectChain) :
    walkChain c = ((chronHops c).length,
      ((chronHops c).map Prod.fst).reverse,
      ((chronHops c).map Prod.snd).reverse) := by
  induction c with
  | last u st => simp [walkChain, chronHops]
  | step u st prev ih => simp [walkChain, chronHops, ih]

lemma chronHops_ne_nil (c : RedirectChain) : chronHops c ≠ [] := by
  cases c <;> simp [chronHops]

/-- Claim C6: the redirect metadata is the chronological list of hops obtained
by walking the redirected_from links and reversing; a terminal response with
no redirected_from link exposes no metadata; and a response reached via
A to B to C yields urls [A, B], reasons [status at A, status at B] and
count 2. -/
theorem claim_C6_redirect_chain :
    setRedirectMeta none = none
  ∧ (∀ c : RedirectChain,
      setRedirectMeta (some c) =
        some ((chronHops c).length, (chronHops c).map Prod.fst,
          (chronHops c).map Prod.snd))
  ∧ (∀ (uA uB : String) (sA sB : Option Nat),
      setRedirectMeta (some (.step uB sB (.last uA sA))) =
        some (2, [uA, uB], [sA, sB])) := by
  refine ⟨rfl, ?_, ?_⟩
  · intro c
    have hlen : (chronHops c).length ≠ 0 := by
      simpa using chronHops_ne_nil c
    simp [setRedirectMeta, walkChain_chron, hlen]
  · intro uA uB sA sB
    rfl

/-! ## Page close and crash callbacks: _make_close_page_callback
(handler.py lines 603 to 608) registered for both the close and the crash
event of every created page (lines 259 to 260).

context_wrappers is modelled as an association list from context name to the
free-permit count of that context's page semaphore; a release increments the
count. -/

/-- One invocation of close_page_callback: if the context name is still
registered, release one slot of its page semaphore, otherwise do nothing. -/
def closePageCallback (context_name : String)
    (context_wrappers : List (String × Nat)) : List (String × Nat) :=
  if context_wrappers.any (fun p => p.fst == context_name) then
    context_wrappers.map
      (fun p => if p.fst == context_name then (p.fst, p.snd + 1) else p)
  else
    context_wrappers

inductive PageEvent where
  | close : PageEvent
  | crash : PageEvent
deriving Repr, DecidableEq

/-- Fire a sequence of page events; the close and the crash registration both
run the same callback body. -/
def firePageEvents (context_name : String) (events : List PageEvent)
    (context_wrappers : List (String × Nat)) : List (String × Nat) :=
  events.foldl (fun w _ => closePageCallback context_name w) context_wrappers

/-- Claim C4, as stated, is falsified by the code: the close and crash
callbacks carry no idempotency guard, so when both events fire for the same
page while the context is registered, two page-semaphore slots are released,
not one. -/
theorem claim_C4_counterexample :
    firePageEvents "default" [PageEvent.close, PageEvent.crash] [("default", 0)] =
        [("default", 2)]
      ∧ (2 : Nat) ≠ 1 := by
  constructor
  · rfl
  · omega

/-- Claim C4 (amended): each firing of a close or crash notification releases
exactly one page-semaphore slot as long as the page's context is still
registered — so when both close and crash fire for the same page, two slots
are released, not one — and a notification firing after the context was
removed from the pool releases nothing. -/
theorem claim_C4_release_per_event :
    (∀ (name : String) (v : Nat) (events : List PageEvent),
      firePageEvents name events [(name, v)] = [(name, v + events.length)])
  ∧ (∀ (name : String) (events : List PageEvent),
      firePageEvents name events [] = []) := by
  constructor
  · intro name v events
    induction events generalizing v with
    | nil => simp [firePageEvents]
    | cons e rest ih =>
      have hstep : closePageCallback name [(name, v)] = [(name, v + 1)] := by
        simp [closePageCallback]
      calc firePageEvents name (e :: rest) [(name, v)]
          = firePageEvents name rest (closePageCallback name [(name, v)]) := rfl
        _ = firePageEvents name rest [(name, v + 1)] := by rw [hstep]
        _ = [(name, v + 1 + rest.length)] := ih (v + 1)
        _ = [(name, v + (e :: rest).length)] := by
            simp only [List.length_cons]
            congr 2
            omega
  · intro name events
    induction events with
    | nil => rfl
    | cons e rest ih =>
      calc firePageEvents name (e :: rest) []
          = firePageEvents name rest (closePageCallback name []) := rfl
        _ = firePageEvents name rest [] := by simp [closePageCallback]
        _ = [] := ih

/-! ## Context creation: _create_browser_context (handler.py lines 178 to 221)
and _maybe_launch_browser (lines 169 to 176).

_maybe_launch_browser is annotated -> None and returns nothing, yet the
persistent branch of _create_browser_context binds its result to context and
then calls context.on, so the persistent path dereferences None. -/

inductive PyError where
  | attribute_error_on_none : PyError
deriving Repr, DecidableEq

/-- The BrowserContextWrapper dataclass (handler.py lines 62 to 66): the
context object (opaque here), the fresh page semaphore modelled by its
capacity, and the persistent flag. -/
structure BrowserContextWrapper where
  context : Unit
  semaphore : Nat
  persistent : Bool
deriving Repr, DecidableEq

/-- Python truthiness of context_kwargs.get("user_data_dir"). -/
def kwargsPersistent (context_kwargs : Option ContextKwargs) : Bool :=
  match context_kwargs with
  | none => false
  | some kw =>
    match kw.user_data_dir with
    | none => false
    | some s => !s.isEmpty

/-- The value _maybe_launch_browser returns: the function is annotated
-> None and has no return statement, so its awaited result is None. -/
def maybeLaunchBrowserResult : Option Unit := none

/-- _create_browser_context, reduced to the data the claim is about: on the
persistent path the local variable context receives the None returned by
_maybe_launch_browser, and the subsequent context.on call raises
AttributeError; on the ephemeral path browser.new_context yields a live
context and the wrapper is built with a fresh semaphore sized to
max_pages_per_context. -/
def createBrowserContext (cfg : Config) (context_kwargs : Option ContextKwargs) :
    Except PyError BrowserContextWrapper :=
  let persistent := kwargsPersistent context_kwargs
  let context : Option Unit :=
    if persistent then maybeLaunchBrowserResult else some ()
  match context with
  | none => .error .attribute_error_on_none
  | some c =>
    .ok { context := c, semaphore := cfg.max_pages_per_context,
          persistent := persistent }

def c5Cfg : Config :=
  { max_pages_per_context := 4, max_contexts := none,
    navigation_timeout := none, restart_disconnected_browser := true }

/-- Claim C5: the code contradicts the claim on the persistent path.
getOrCreateContext called with creation options containing the persistent
profile-storage key binds the None returned by _maybe_launch_browser (a
function annotated -> None) to the context variable and then calls
context.on, raising AttributeError instead of returning a wrapper; the
ephemeral path does return a wrapper with a fresh semaphore sized to the
configured page capacity. -/
theorem claim_C5_persistent_path :
    createBrowserContext c5Cfg (some { user_data_dir := some "/var/profile" }) =
        .error .attribute_error_on_none
      ∧ createBrowserContext c5Cfg none =
          .ok { context := (), semaphore := c5Cfg.max_pages_per_context,
                persistent := false } := by
  exact ⟨rfl, rfl⟩

/-! ## Failure cleanup: the except block of _download_request_with_retry
(handler.py lines 365 to 385).

The inner pipeline outcome is an Except; on an exception the page is closed
unless the retain-page flag (camoufox_include_page) is set or the page is
already closed, and the same single exception is re-raised. -/

/-- The try/except/raise wrapper around _download_request_with_page: returns
the propagated outcome and whether page.close() was performed. -/
def downloadRequestCleanup {R : Type} (camoufox_include_page : Bool)
    (page_is_closed : Bool) (inner : Except String R) : Except String R × Bool :=
  match inner with
  | .ok r => (.ok r, false)
  | .error e => (.error e, !camoufox_include_page && !page_is_closed)

/-- Claim C7: a failing fetch propagates exactly the one error raised by the
pipeline, and before the error propagates the page is closed iff the
retain-page flag was not requested and the page is not already closed. -/
theorem claim_C7_failure_cleanup :
    ∀ (R : Type) (camoufox_include_page page_is_closed : Bool) (e : String),
      (downloadRequestCleanup (R := R) camoufox_include_page page_is_closed
          (.error e)).fst = .error e
      ∧ ((downloadRequestCleanup (R := R) camoufox_include_page page_is_closed
            (.error e)).snd = true ↔
          camoufox_include_page = false ∧ page_is_closed = false) := by
  intro R inc closed e
  constructor
  · rfl
  · cases inc <;> cases closed <;> simp [downloadRequestCleanup]

/-! ## Navigation versus download arbiter: _get_response_and_download
(handler.py lines 465 to 535).

The engine-side behaviour of one navigation is a scenario: the outcome of
page.goto (a response object, None, or a PlaywrightError with a message), the
response events observed by _handle_response while it ran, and the download
event handled by _handle_download if one fired. -/

structure PResponse where
  status : Nat
  headers : List (String × String)
  url : String
deriving Repr, DecidableEq

inductive NavOutcome where
  | ok : Option PResponse → NavOutcome
  | err : String → NavOutcome
deriving Repr, DecidableEq

/-- What _handle_download observed for a fired download event: either the
body bytes, source url and suggested filename of a completed download, or the
url and failure message of a failed one (dwnld.failure() non-None, or reading
the file raised). -/
inductive DownloadEvent where
  | success : List Nat → String → String → DownloadEvent
  | failure : String → String → DownloadEvent
deriving Repr, DecidableEq

structure NavScenario where
  nav : NavOutcome
  response_events : List PResponse
  download_event : Option DownloadEvent
deriving Repr, DecidableEq

/-- The Download dataclass (handler.py lines 69 to 79), updated in place by
the two event handlers. -/
structure DownloadRec where
  body : List Nat := []
  url : String := ""
  suggested_filename : String := ""
  exception : Option String := none
  response_status : Nat := 200
  headers : List (String × String) := []
deriving Repr, DecidableEq

/-- Download.__bool__: present iff non-empty body or recorded exception. -/
def downloadTruthy (d : DownloadRec) : Bool :=
  !d.body.isEmpty || d.exception.isSome

/-- _handle_response invocations: each observed response overwrites
response_status and headers. -/
def applyResponseEvents (evs : List PResponse) (d : DownloadRec) : DownloadRec :=
  evs.foldl
    (fun acc r =>
      { acc with response_status := r.status, headers := r.headers })
    d

/-- _handle_download invocation, if a download event fired. -/
def applyDownloadEvent : Option DownloadEvent → DownloadRec → DownloadRec
  | none, d => d
  | some (.success b u f), d =>
    { d with body := b, url := u, suggested_filename := f }
  | some (.failure u m), d =>
    { d with exception := some ("Failed to download " ++ u ++ ": " ++ m) }

/-- The Download record after all events of the scenario were handled. -/
def scenarioDownload (s : NavScenario) : DownloadRec :=
  applyDownloadEvent s.download_event (applyResponseEvents s.response_events {})

/-- Whether the download_started asyncio.Event was ever set: both handlers
set it. -/
def downloadStartedFlag (s : NavScenario) : Bool :=
  !s.response_events.isEmpty || s.download_event.isSome

/-- The arbiter's result: a (response, download) pair returned normally, a
raised error, or an await that can never be woken (no event of the awaited
kind fires in the scenario). -/
inductive ArbOutcome where
  | result : Option PResponse → Option DownloadRec → ArbOutcome
  | raised : String → ArbOutcome
  | hangs : ArbOutcome
deriving Repr, DecidableEq

/-- The arbiter's return value plus whether the finally block removed the two
listeners before control left the function (false only when the function
never returns). -/
structure ArbReturn where
  outcome : ArbOutcome
  listeners_removed : Bool
deriving Repr, DecidableEq

/-- _get_response_and_download.  The browser-type guard is Python
`self.config.browser_type_name in ("firefox")`, a substring test against the
string "firefox"; the download-signal guard is a substring test of the error
message. -/
def getResponseAndDownload (browser_type_name : String) (s : NavScenario) :
    ArbReturn :=
  let download := scenarioDownload s
  match s.nav with
  | .ok resp =>
    ⟨.result resp (if downloadTruthy download then some download else none), true⟩
  | .err msg =>
    if !(strContains "firefox" browser_type_name
        && strContains msg "Download is starting") then
      ⟨.raised msg, true⟩
    else if !downloadStartedFlag s then
      ⟨.hangs, false⟩
    else if download.response_status == 204 then
      ⟨.raised msg, true⟩
    else if s.download_event.isNone then
      ⟨.hangs, false⟩
    else
      ⟨.result none (if downloadTruthy download then some download else none), true⟩

/-- How many of the three outcome kinds (response, download, exception) the
arbiter produced. -/
def resultCount : ArbOutcome → Nat
  | .result r d => (if r.isSome then 1 else 0) + (if d.isSome then 1 else 0)
  | .raised _ => 1
  | .hangs => 0

lemma applyResponseEvents_exception (evs : List PResponse) (d : DownloadRec) :
    (applyResponseEvents evs d).exception = d.exception := by
  induction evs generalizing d with
  | nil => rfl
  | cons r rest ih => simpa [applyResponseEvents] using ih _

def c3Scenario : NavScenario :=
  { nav := .err "Download is starting", response_events := [],
    download_event := some (.success [] "http://x/file" "file.bin") }

/-- Claim C3, as stated, is falsified by the code: a navigation failing with
the download-in-progress signal, followed by a non-204 status and a download
that completes successfully but with an empty body, produces no download
result (the Download record is falsy), so the fetch yields neither a download
result nor a navigation response. -/
theorem claim_C3_counterexample :
    (scenarioDownload c3Scenario).response_status ≠ 204
  ∧ (scenarioDownload c3Scenario).exception = none
  ∧ getResponseAndDownload "firefox" c3Scenario =
      ⟨ArbOutcome.result none none, true⟩ := by
  refine ⟨by decide, by decide, by decide⟩

/-- Claim C3 (amended): for every fetch whose navigation fails with the
download-in-progress signal, after the download-started notification: if the
last observed response status is 204 the original navigation error is
re-raised and no download result is produced; if the last observed status is
not 204 and the download completes successfully with a non-empty body, the
fetch yields a download result and no navigation response; a navigation
failure not matching the download-in-progress pattern propagates unchanged. -/
theorem claim_C3_download_arbitration :
    (∀ (btn : String) (s : NavScenario) (m : String),
      s.nav = .err m →
      strContains "firefox" btn = true →
      strContains m "Download is starting" = true →
      downloadStartedFlag s = true →
      (scenarioDownload s).response_status = 204 →
      getResponseAndDownload btn s = ⟨.raised m, true⟩)
  ∧ (∀ (btn : String) (s : NavScenario) (m : String) (b : List Nat) (u f : String),
      s.nav = .err m →
      strContains "firefox" btn = true →
      strContains m "Download is starting" = true →
      (scenarioDownload s).response_status ≠ 204 →
      s.download_event = some (.success b u f) →
      b ≠ [] →
      getResponseAndDownload btn s =
          ⟨.result none (some (scenarioDownload s)), true⟩
        ∧ (scenarioDownload s).body = b
        ∧ (scenarioDownload s).exception = none)
  ∧ (∀ (btn : String) (s : NavScenario) (m : String),
      s.nav = .err m →
      (strContains "firefox" btn && strContains m "Download is starting") = false →
      getResponseAndDownload btn s = ⟨.raised m, true⟩) := by
  refine ⟨?_, ?_, ?_⟩
  · intro btn s m hnav hf hsig hstart h204
    unfold getResponseAndDownload
    rw [hnav]
    simp [hf, hsig, hstart, h204]
  · intro btn s m b u f hnav hf hsig h204 hdl hb
    have hbody : (scenarioDownload s).body = b := by
      unfold scenarioDownload
      rw [hdl]
      rfl
    have hexc : (scenarioDownload s).exception = none := by
      unfold scenarioDownload
      rw [hdl]
      simp [applyDownloadEvent, applyResponseEvents_exception]
    have htruthy : downloadTruthy (scenarioDownload s) = true := by
      unfold downloadTruthy
      rw [hbody]
      simp [hb]
    have hstart : downloadStartedFlag s = true := by
      unfold downloadStartedFlag
      rw [hdl]
      simp
    refine ⟨?_, hbody, hexc⟩
    unfold getResponseAndDownload
    rw [hnav]
    simp [hf, hsig, hstart, htruthy, hdl, h204]
  · intro btn s m hnav hcond
    unfold getResponseAndDownload
    rw [hnav]
    simp [hcond]

def w3Scenario : NavScenario :=
  { nav := .err "Download is starting",
    response_events := [{ status := 204, headers := [], url := "http://y" }],
    download_event := none }

/-- Witness for claim C3: the download-in-progress signal followed by a 204
response re-raises the original navigation error. -/
theorem claim_C3_witness :
    getResponseAndDownload "firefox" w3Scenario =
      ⟨ArbOutcome.raised "Download is starting", true⟩ :=
  claim_C3_download_arbitration.1 "firefox" w3Scenario "Download is starting"
    rfl (by decide) (by decide) (by decide) (by decide)

def c9NeitherScenario : NavScenario :=
  { nav := .ok none, response_events := [], download_event := none }

def c9BothScenario : NavScenario :=
  { nav := .ok (some { status := 200, headers := [], url := "http://p" }),
    response_events := [],
    download_event := some (.success [1] "http://d/f" "f.bin") }

lemma getRD_ok (btn : String) (s : NavScenario) (resp : Option PResponse)
    (hnav : s.nav = .ok resp) :
    getResponseAndDownload btn s =
      ⟨.result resp
        (if downloadTruthy (scenarioDownload s) then some (scenarioDownload s)
         else none), true⟩ := by
  unfold getResponseAndDownload
  rw [hnav]

lemma getRD_err_cases (btn : String) (s : NavScenario) (msg : String)
    (hnav : s.nav = .err msg) :
    getResponseAndDownload btn s = ⟨.raised msg, true⟩
  ∨ getResponseAndDownload btn s = ⟨.hangs, false⟩
  ∨ getResponseAndDownload btn s =
      ⟨.result none
        (if downloadTruthy (scenarioDownload s) then some (scenarioDownload s)
         else none), true⟩ := by
  unfold getResponseAndDownload
  rw [hnav]
  cases h1 : (strContains "firefox" btn && strContains msg "Download is starting") <;>
  cases h2 : downloadStartedFlag s <;>
  cases h3 : ((scenarioDownload s).response_status == 204) <;>
  cases h4 : s.download_event.isNone <;>
    simp [h1, h2, h3, h4]

/-- Claim C9, as stated, is falsified by the code: a navigation for which
page.goto returns None with no download present returns normally with neither
a response, nor a download, nor an exception — zero of the three outcome
kinds instead of exactly one. -/
theorem claim_C9_counterexample :
    getResponseAndDownload "firefox" c9NeitherScenario =
        ⟨ArbOutcome.result none none, true⟩
      ∧ resultCount (getResponseAndDownload "firefox" c9NeitherScenario).outcome = 0
      ∧ (0 : Nat) ≠ 1 := by
  refine ⟨by decide, by decide, by omega⟩

/-- Claim C9 (amended): the download and response listeners subscribed before
navigating are removed before returning on every returning path — success,
download and raising paths alike; any response the arbiter yields comes from
the successful navigation, and any download it yields is present (non-empty
body or recorded exception) and is the per-fetch Download record; but the
arbiter does not always produce exactly one of response, download, exception:
a successful navigation during which a download with content completed yields
both a response and a download, and a navigation returning no response with
no download present yields neither. -/
theorem claim_C9_arbiter_paths :
    (∀ (btn : String) (s : NavScenario),
      (getResponseAndDownload btn s).outcome ≠ .hangs →
      (getResponseAndDownload btn s).listeners_removed = true)
  ∧ (∀ (btn : String) (s : NavScenario) (r : Option PResponse)
        (d : Option DownloadRec),
      (getResponseAndDownload btn s).outcome = .result r d →
      (r = none ∨ s.nav = .ok r))
  ∧ (∀ (btn : String) (s : NavScenario) (r : Option PResponse) (dr : DownloadRec),
      (getResponseAndDownload btn s).outcome = .result r (some dr) →
      downloadTruthy dr = true ∧ dr = scenarioDownload s)
  ∧ resultCount (getResponseAndDownload "firefox" c9BothScenario).outcome = 2
  ∧ resultCount (getResponseAndDownload "firefox" c9NeitherScenario).outcome = 0 := by
  refine ⟨?_, ?_, ?_, by decide, by decide⟩
  · intro btn s h
    cases hnav : s.nav with
    | ok resp => rw [getRD_ok btn s resp hnav]
    | err msg =>
      rcases getRD_err_cases btn s msg hnav with he | he | he
      · rw [he]
      · rw [he] at h
        exact absurd rfl h
      · rw [he]
  · intro btn s r d h
    cases hnav : s.nav with
    | ok resp =>
      rw [getRD_ok btn s resp hnav] at h
      obtain ⟨h1, h2⟩ := ArbOutcome.result.inj h
      subst h1
      exact Or.inr rfl
    | err msg =>
      rcases getRD_err_cases btn s msg hnav with he | he | he <;> rw [he] at h
      · simp at h
      · simp at h
      · obtain ⟨h1, h2⟩ := ArbOutcome.result.inj h
        exact Or.inl h1.symm
  · intro btn s r dr h
    cases hnav : s.nav with
    | ok resp =>
      rw [getRD_ok btn s resp hnav] at h
      obtain ⟨h1, h2⟩ := ArbOutcome.result.inj h
      by_cases ht : downloadTruthy (scenarioDownload s) = true
      · rw [if_pos ht] at h2
        obtain rfl := Option.some.inj h2
        exact ⟨ht, rfl⟩
      · rw [if_neg ht] at h2
        simp at h2
    | err msg =>
      rcases getRD_err_cases btn s msg hnav with he | he | he <;> rw [he] at h
      · simp at h
      · simp at h
      · obtain ⟨h1, h2⟩ := ArbOutcome.result.inj h
        by_cases ht : downloadTruthy (scenarioDownload s) = true
        · rw [if_pos ht] at h2
          obtain rfl := Option.some.inj h2
          exact ⟨ht, rfl⟩
        · rw [if_neg ht] at h2
          simp at h2

/-- Witness for claim C9: on the plain raising path the listeners are
removed before the error propagates. -/
theorem claim_C9_witness :
    (getResponseAndDownload "chromium"
        { nav := .err "net::ERR_FAILED", response_events := [],
          download_event := none }).listeners_removed = true :=
  claim_C9_arbiter_paths.1 "chromium"
    { nav := .err "net::ERR_FAILED", response_events := [],
      download_event := none }
    (by decide)

/-! ## Response assembly: _download_request_with_page
(handler.py lines 387 to 463).

The page is reduced to the data the function reads (page.url and the page
content string at read time); _encode_body from the _utils collaborator is a
parameter returning (body bytes, encoding name); page-method application,
security details and server address are external effects that do not
contribute to the fields the claims are about and the page content is taken
after they ran. -/

structure PageState where
  url : String
  content : String
deriving Repr, DecidableEq

/-- A Scrapy response as assembled by _download_request_with_page; the
encoding and ip address fields are omitted as external. -/
structure ScrapyResponse where
  url : String
  status : Nat
  headers : List (String × String)
  body : List Nat
deriving Repr, DecidableEq

inductive FetchOutcome where
  | ok : ScrapyResponse → FetchOutcome
  | raised : String → FetchOutcome
  | hangs : FetchOutcome
deriving Repr, DecidableEq

/-- Headers.pop("Content-Encoding", None): drop that header. -/
def popContentEncoding (hs : List (String × String)) : List (String × String) :=
  hs.filter (fun p => !(p.fst == "Content-Encoding"))

/-- _download_request_with_page given the arbiter's outcome.  headers stays
unassigned (none) on the response-less download path, where Python never
reads it. -/
def downloadRequestWithPage
    (encode_body : List (String × String) → String → List Nat × String)
    (camoufox_include_page : Bool) (page : PageState) (arb : ArbOutcome) :
    FetchOutcome :=
  match arb with
  | .hangs => .hangs
  | .raised m => .raised m
  | .result response download =>
    let headers : Option (List (String × String)) :=
      match response with
      | some r => some (popContentEncoding r.headers)
      | none =>
        match download with
        | none => some []
        | some _ => none
    match download with
    | some d =>
      match d.exception with
      | some m => .raised m
      | none =>
        .ok { url := d.url, status := d.response_status,
              headers := popContentEncoding d.headers, body := d.body }
    | none =>
      let hs := headers.getD []
      let encoded := encode_body hs page.content
      .ok { url := page.url,
            status := match response with | some r => r.status | none => 200,
            headers := hs, body := encoded.fst }

/-- Claim C10: when navigation returns no response object and no download is
present, the fetch still succeeds and yields a document result with status
200, empty headers, and the page's current url as its url; this holds both
for the raw (response none, download none) arbiter outcome and end to end for
every scenario in which page.goto returns None and no download event fires. -/
theorem claim_C10_no_response :
    (∀ (encode_body : List (String × String) → String → List Nat × String)
        (camoufox_include_page : Bool) (page : PageState),
      downloadRequestWithPage encode_body camoufox_include_page page
          (ArbOutcome.result none none) =
        .ok { url := page.url, status := 200, headers := [],
              body := (encode_body [] page.content).fst })
  ∧ (∀ (encode_body : List (String × String) → String → List Nat × String)
        (camoufox_include_page : Bool) (page : PageState)
        (events : List PResponse),
      downloadRequestWithPage encode_body camoufox_include_page page
          (getResponseAndDownload "firefox"
            { nav := .ok none, response_events := events,
              download_event := none }).outcome =
        .ok { url := page.url, status := 200, headers := [],
              body := (encode_body [] page.content).fst }) := by
  constructor
  · intro encode_body inc page
    rfl
  · intro encode_body inc page events
    have harb : (getResponseAndDownload "firefox"
        { nav := .ok none, response_events := events,
          download_event := none }).outcome = ArbOutcome.result none none := by
      rw [getRD_ok "firefox" _ none rfl]
      have ht : downloadTruthy (scenarioDownload
          { nav := .ok none, response_events := events,
            download_event := none }) = false := by
        unfold downloadTruthy scenarioDownload applyDownloadEvent
        simp only []
        have hb : (applyResponseEvents events {}).body = ([] : List Nat) := by
          have : ∀ (d : DownloadRec) (evs : List PResponse),
              (applyResponseEvents evs d).body = d.body := by
            intro d evs
            induction evs generalizing d with
            | nil => rfl
            | cons r rest ih => simpa [applyResponseEvents] using ih _
          exact this {} events
        rw [hb, applyResponseEvents_exception]
        rfl
      rw [ht]
      rfl
    rw [harb]
    rfl

end ScrapyCamoufox
